import Mathlib

/-!
Verification of the camera-capture core of the puhe-kaveri-app repository.

The development shallowly embeds the camera-session code:
* the constraint-fallback acquisition loops of
  `src/hooks/useModernCamera.ts` (`startCamera`),
  `src/hooks/useCamera.ts` (`open`) and
  `src/components/camera/CameraPanel.tsx` (`tryGetStream`);
* the stream/track ownership discipline (`cleanup`, `closeCamera`);
* the readiness state machine of `CameraPanel.tsx`
  (`markReady`, the readiness event listeners and the watchdog timer);
* the capture/crop arithmetic of `useModernCamera.capturePhoto`
  (JavaScript numeric expressions embedded over `ℚ`);
* the capture guards of `useModernCamera.capturePhoto` and
  `CameraPanel.captureImage`;
* the upload / offline flow of
  `src/hooks/useCameraVoiceFlow.ts` (`processPhotoWithFilename`),
  with `JSON.parse` supplied as an explicit parsing oracle.
-/

/-- The session states of `CameraPanel.tsx`
(`type CameraState = 'idle' | 'opening' | 'ready' | 'capturing' | 'denied' | 'error'`). -/
inductive CameraState
  | idle
  | opening
  | ready
  | capturing
  | denied
  | error
  deriving DecidableEq

/-! ## Device media gateway: constraint fallback loops (C1) -/

/-- One entry of a `MediaStreamConstraints` array, as used by the three
acquisition loops in the repository.  Absent options are `none`. -/
structure MediaConstraint where
  deviceIdExact : Option String
  facingExact : Option String
  facingIdeal : Option String
  widthIdeal : Option Nat
  widthMax : Option Nat
  heightIdeal : Option Nat
  heightMax : Option Nat
  aspectIdeal : Option ℚ
  anyVideo : Bool
  audio : Option Bool
  deriving DecidableEq

/-- A constraint that leaves every option empty; the concrete lists below
override the fields the source sets. -/
def MediaConstraint.base : MediaConstraint :=
  ⟨none, none, none, none, none, none, none, none, false, none⟩

/-- The four-entry constraint array of `useModernCamera.startCamera`
(environment + 1920x1080 ideal, environment + 1280x720 ideal,
user facing, bare video). -/
def modernCameraConstraints : List MediaConstraint :=
  [{ MediaConstraint.base with
      facingExact := some ("environment"), widthIdeal := some 1920, widthMax := some 4096,
      heightIdeal := some 1080, heightMax := some 2160, aspectIdeal := some (16 / 9) },
   { MediaConstraint.base with
      facingExact := some ("environment"), widthIdeal := some 1280, heightIdeal := some 720 },
   { MediaConstraint.base with facingExact := some ("user") },
   { MediaConstraint.base with anyVideo := true }]

/-- The five-entry constraint array of `useCamera.open`. -/
def useCameraConstraints : List MediaConstraint :=
  [{ MediaConstraint.base with
      facingExact := some ("environment"), widthIdeal := some 1920, widthMax := some 4096,
      heightIdeal := some 1080, heightMax := some 2160, aspectIdeal := some (16 / 9) },
   { MediaConstraint.base with
      facingExact := some ("environment"), widthIdeal := some 1280, widthMax := some 1920,
      heightIdeal := some 720, heightMax := some 1080 },
   { MediaConstraint.base with
      facingExact := some ("user"), widthIdeal := some 1280, widthMax := some 1920,
      heightIdeal := some 720, heightMax := some 1080 },
   { MediaConstraint.base with facingExact := some ("environment") },
   { MediaConstraint.base with anyVideo := true }]

/-- The attempt list built by `CameraPanel.tryGetStream`: optional exact
device, requested facing mode, ideal environment, ideal user, bare video
(all with `audio: false`). -/
def cameraPanelAttempts (selectedDeviceId : Option String) (facingMode : String) :
    List MediaConstraint :=
  (match selectedDeviceId with
   | some dev => [{ MediaConstraint.base with deviceIdExact := some dev, audio := some false }]
   | none => []) ++
  [{ MediaConstraint.base with facingExact := some facingMode, audio := some false },
   { MediaConstraint.base with facingIdeal := some ("environment"), audio := some false },
   { MediaConstraint.base with facingIdeal := some ("user"), audio := some false },
   { MediaConstraint.base with anyVideo := true, audio := some false }]

/-- The fallback loop of `CameraPanel.tryGetStream` and of `useCamera.open`:
try each constraint with the environment `env` (the `getUserMedia` call),
return the first success, keep the most recent failure and throw it after
the last attempt.  The second argument carries `lastErr`; its initial value
is the fallback error thrown when the list is empty
(`lastErr ?? new Error('Camera open failed')` in `CameraPanel`,
`lastError || new Error('No camera access possible')` in `useCamera`). -/
def tryGetStream {κ σ ε : Type} (env : κ → Except ε σ) : List κ → ε → Except ε σ
  | [], last => Except.error last
  | c :: rest, last =>
    match env c with
    | Except.ok s => Except.ok s
    | Except.error e => tryGetStream env rest e

/-- The fallback loop of `useModernCamera.startCamera`: failures are logged
and dropped, the loop only records whether some attempt produced a stream
(`let stream: MediaStream | null = null; ... break`). -/
def startCameraLoop {κ σ ε : Type} (env : κ → Except ε σ) : List κ → Option σ
  | [] => none
  | c :: rest =>
    match env c with
    | Except.ok s => some s
    | Except.error _ => startCameraLoop env rest

/-- `useModernCamera.startCamera` after its loop:
`if (!stream) throw new Error('No camera access available')` —
the error thrown when every attempt fails is a fresh generic error,
not the last attempt's failure. -/
def modernStartAcquire {κ σ : Type} (env : κ → Except String σ) (cs : List κ) :
    Except String σ :=
  match startCameraLoop env cs with
  | some s => Except.ok s
  | none => Except.error ("No camera access available")

/-! ## Frame capture/crop unit of `useModernCamera.capturePhoto` (C3, C6) -/

/-- The geometry computed by `useModernCamera.capturePhoto`:
the source crop rectangle and the output canvas dimensions. -/
structure CaptureGeom where
  sourceX : ℚ
  sourceY : ℚ
  sourceWidth : ℚ
  sourceHeight : ℚ
  outputWidth : ℚ
  outputHeight : ℚ
  deriving DecidableEq

/-- The arithmetic of `useModernCamera.capturePhoto` lines 142-167, with the
JavaScript numbers embedded as rationals.  The condition and both branches
are literal translations:
`if (videoAspectRatio > displayAspectRatio) { sourceWidth = videoHeight *
displayAspectRatio; sourceX = (videoWidth - sourceWidth) / 2 } else
{ sourceHeight = videoWidth / displayAspectRatio; sourceY = (videoHeight -
sourceHeight) / 2 }`, then `outputWidth = Math.max(displayedWidth, 1080)`
and `outputHeight = outputWidth / displayAspectRatio`. -/
def capturePhotoGeom (videoWidth videoHeight displayedWidth displayedHeight : ℚ) :
    CaptureGeom :=
  if videoWidth / videoHeight > displayedWidth / displayedHeight then
    ⟨(videoWidth - videoHeight * (displayedWidth / displayedHeight)) / 2, 0,
      videoHeight * (displayedWidth / displayedHeight), videoHeight,
      max displayedWidth 1080,
      max displayedWidth 1080 / (displayedWidth / displayedHeight)⟩
  else
    ⟨0, (videoHeight - videoWidth / (displayedWidth / displayedHeight)) / 2,
      videoWidth, videoWidth / (displayedWidth / displayedHeight),
      max displayedWidth 1080,
      max displayedWidth 1080 / (displayedWidth / displayedHeight)⟩

/-! ## Stream handle / track ownership (C2)

A `MediaWorld` abstracts the browser's camera pipeline: `live` is the set of
track ids currently capturing, `nextId` the next id `getUserMedia` would
hand out (so acquired tracks are fresh).  A `CamSession` holds at most one
stream handle (`streamRef.current` in the source), a stream being the list
of its track ids. -/

structure MediaWorld where
  nextId : Nat
  live : List Nat
  deriving DecidableEq

structure CamSession where
  state : CameraState
  stream : Option (List Nat)
  deriving DecidableEq

/-- The track list of an optional stream handle (empty when `null`). -/
def streamTracks : Option (List Nat) → List Nat
  | some ts => ts
  | none => []

/-- The effect of `stream.getTracks().forEach(track => track.stop())`:
every track of the stream stops being live. -/
def stopTracks (w : MediaWorld) (ts : List Nat) : MediaWorld :=
  ⟨w.nextId, w.live.filter (fun t => decide (t ∉ ts))⟩

/-- `CameraPanel.cleanup` (and the identical blocks in `useModernCamera` and
`useCamera`): stop every track of the held stream and null the reference. -/
def cleanup (s : CamSession) (w : MediaWorld) : CamSession × MediaWorld :=
  match s.stream with
  | some ts => (⟨s.state, none⟩, stopTracks w ts)
  | none => (s, w)

/-- `getUserMedia` succeeding with a stream of `n` fresh tracks. -/
def acquireStream (w : MediaWorld) (n : Nat) : List Nat × MediaWorld :=
  ((List.range n).map (fun i => w.nextId + i),
   ⟨w.nextId + n, w.live ++ (List.range n).map (fun i => w.nextId + i)⟩)

/-- The resource effect of an open attempt (`CameraPanel.startCamera`,
`useModernCamera.startCamera`, `useCamera.open`): always `cleanup` first;
then either acquisition succeeds with a fresh stream of `n` tracks
(`outcome = some n`), or every constraint fails and the catch block runs
`cleanup` again and reports failure (`outcome = none`). -/
def startCameraResource (s : CamSession) (w : MediaWorld) (outcome : Option Nat) :
    CamSession × MediaWorld :=
  match outcome with
  | some n =>
    (⟨CameraState.opening, some (acquireStream (cleanup s w).2 n).1⟩,
     (acquireStream (cleanup s w).2 n).2)
  | none =>
    (⟨CameraState.error, (cleanup (cleanup s w).1 (cleanup s w).2).1.stream⟩,
     (cleanup (cleanup s w).1 (cleanup s w).2).2)

/-- `CameraPanel.closeCamera`: `cleanup(); setState('idle')`. -/
def closeCamera (s : CamSession) (w : MediaWorld) : CamSession × MediaWorld :=
  (⟨CameraState.idle, (cleanup s w).1.stream⟩, (cleanup s w).2)

/-- Session ownership invariant: every live track belongs to the stream the
session holds (there is no second live stream handle). -/
def ownsLive (s : CamSession) (w : MediaWorld) : Prop :=
  ∀ t ∈ w.live, t ∈ streamTracks s.stream

/-- The held stream was acquired earlier, so its track ids are below the
world's fresh-id counter. -/
def sessionTracksFresh (s : CamSession) (w : MediaWorld) : Prop :=
  ∀ t ∈ streamTracks s.stream, t < w.nextId

/-! ## Readiness detection in `CameraPanel.startCamera` (C4, C5)

The open attempt installs several readiness listeners plus a one-shot
watchdog timer.  `PanelSt` carries the session state and whether the
watchdog timeout is still pending (`openWatchdogRef.current !== null`):
`markReady` clears the timer, and a fired timer is spent. -/

structure PanelSt where
  state : CameraState
  watchdogPending : Bool
  deriving DecidableEq

/-- The functional state update of `CameraPanel.markReady`:
`setState(prev => (prev === 'opening' ? 'ready' : prev))`. -/
def markReadyState (s : CameraState) : CameraState :=
  if s = CameraState.opening then CameraState.ready else s

/-- `CameraPanel.markReady`: clear the pending watchdog, then apply the
guarded state update. -/
def markReadyP (p : PanelSt) : PanelSt :=
  ⟨markReadyState p.state, false⟩

/-- The watchdog callback of `CameraPanel.startCamera` (6000 ms timer):
it runs only if the timer is still pending (not cleared by `markReady`),
is spent by firing, and either marks ready (`vid.readyState >= 2`) or sets
the state to `error` unconditionally. -/
def watchdogFire (rs : Nat) (p : PanelSt) : PanelSt :=
  if p.watchdogPending = true then
    if 2 ≤ rs then ⟨markReadyState p.state, false⟩
    else ⟨CameraState.error, false⟩
  else p

/-- The readiness signals of one open attempt: the four DOM events wired to
`onAnyReady` (guarded by `vid.readyState >= 2`), the track live/unmute path
(which calls `markReady` directly), and the watchdog timeout. -/
inductive ReadySignal
  | domEvent (rs : Nat)
  | trackLiveUnmuted
  | watchdogTimer (rs : Nat)
  deriving DecidableEq

/-- Dispatch one readiness signal against the panel state. -/
def applySignal (sig : ReadySignal) (p : PanelSt) : PanelSt :=
  match sig with
  | ReadySignal.domEvent rs => if 2 ≤ rs then markReadyP p else p
  | ReadySignal.trackLiveUnmuted => markReadyP p
  | ReadySignal.watchdogTimer rs => watchdogFire rs p

/-- Run a sequence of readiness signals in order. -/
def runSignals (p : PanelSt) : List ReadySignal → PanelSt
  | [] => p
  | sig :: rest => runSignals (applySignal sig p) rest

/-- Count how many steps of a signal sequence transition the session from
`opening` to `ready`. -/
def transCount (p : PanelSt) : List ReadySignal → Nat
  | [] => 0
  | sig :: rest =>
    (if p.state = CameraState.opening ∧ (applySignal sig p).state = CameraState.ready
      then 1 else 0)
    + transCount (applySignal sig p) rest

/-! ## Capture guards (C6, C7) -/

/-- The environment of one `useModernCamera.capturePhoto` call:
whether the refs are attached, whether `getContext('2d')` returns a
context, the sink's reported dimensions, the displayed element size, and
whether `canvas.toBlob` produces a blob. -/
structure ModernCaptureIn where
  hasVideo : Bool
  hasCanvas : Bool
  hasContext : Bool
  videoWidth : ℚ
  videoHeight : ℚ
  displayedWidth : ℚ
  displayedHeight : ℚ
  blobOk : Bool
  deriving DecidableEq

/-- The result of `useModernCamera.capturePhoto`: a captured image (its
geometry) or the message of the rejection. -/
inductive CaptureResult
  | image (g : CaptureGeom)
  | failure (msg : String)
  deriving DecidableEq

/-- `useModernCamera.capturePhoto`, guards in source order; the second
component is the hook's `isActive` state after the call — the function
never mutates it. -/
def capturePhoto (isActive : Bool) (inp : ModernCaptureIn) : CaptureResult × Bool :=
  if inp.hasVideo = false ∨ inp.hasCanvas = false ∨ isActive = false then
    (CaptureResult.failure ("Camera not ready"), isActive)
  else if inp.hasContext = false then
    (CaptureResult.failure ("Canvas context not available"), isActive)
  else if inp.videoWidth = 0 ∨ inp.videoHeight = 0 then
    (CaptureResult.failure ("Video not ready"), isActive)
  else if inp.blobOk = true then
    (CaptureResult.image
      (capturePhotoGeom inp.videoWidth inp.videoHeight inp.displayedWidth inp.displayedHeight),
     isActive)
  else (CaptureResult.failure ("Failed to create photo blob"), isActive)

/-- The environment of one `CameraPanel.captureImage` call. -/
structure PanelCaptureIn where
  hasVideo : Bool
  hasCanvas : Bool
  hasContext : Bool
  videoWidth : Nat
  videoHeight : Nat
  blobOk : Bool
  deriving DecidableEq

/-- A captured frame of `CameraPanel.captureImage` (canvas sized to the
native video dimensions). -/
structure PanelImg where
  width : Nat
  height : Nat
  deriving DecidableEq

/-- `CameraPanel.captureImage` as the sequence of session states it writes
(`setState` calls, initial state first) plus the produced image:
 * guard `state !== 'ready' || !videoRef.current || !canvasRef.current`
   returns at once, leaving the state alone;
 * otherwise `setState('capturing')`; a missing 2d context throws into the
   local catch which runs `setState('error')`;
 * a successful `toBlob` callback stores the blob and runs
   `setState('ready')`;
 * a null blob makes the callback throw after the surrounding try/catch has
   exited, so no further `setState` runs and the session stays `capturing`. -/
def captureImageRun (st : CameraState) (inp : PanelCaptureIn) :
    List CameraState × Option PanelImg :=
  if st ≠ CameraState.ready ∨ inp.hasVideo = false ∨ inp.hasCanvas = false then
    ([st], none)
  else if inp.hasContext = false then
    ([st, CameraState.capturing, CameraState.error], none)
  else if inp.blobOk = true then
    ([st, CameraState.capturing, CameraState.ready], some ⟨inp.videoWidth, inp.videoHeight⟩)
  else ([st, CameraState.capturing], none)

/-! ## Upload / offline flow of `useCameraVoiceFlow.processPhotoWithFilename`
(C8, C9, C10)

`JSON.parse` is supplied as an explicit oracle `parse : String → Option
ParsedJson` (`none` models a parse exception); everything else follows the
source line by line. -/

/-- Message kinds of the conversation (`type` field in `addMessage` calls). -/
inductive MsgType
  | system
  | user
  | assistant
  deriving DecidableEq

/-- A conversation message as `processPhotoWithFilename` builds them:
kind, `content` text, and the optional `audioUrl` attached to an assistant
message carrying an audio response. -/
structure ChatMsg where
  type : MsgType
  content : String
  audioUrl : Option String
  deriving DecidableEq

/-- The fields of the JSON bodies this flow consumes: optional
`textResponse` and optional base64 `audioResponse`. -/
structure ParsedJson where
  textResponse : Option String
  audioResponse : Option String
  deriving DecidableEq

/-- An HTTP response from the webhook: status code, whether the
`content-type` header exists and includes `application/json`, and the body
text. -/
structure HttpResponse where
  status : Nat
  contentTypeJson : Bool
  body : String
  deriving DecidableEq

/-- `response.ok` of the fetch API: status in the 2xx range. -/
def HttpResponse.ok (r : HttpResponse) : Bool :=
  decide (200 ≤ r.status ∧ r.status < 300)

/-- The multipart form data built before the fetch: the blob (as its id)
and the appended string fields, in source order.  (The `file` entry records
the filename given to the blob.) -/
structure UploadRequest where
  blob : Nat
  fields : List (String × String)
  deriving DecidableEq

/-- Construct the `FormData` of `processPhotoWithFilename`. -/
def uploadRequest (blobId : Nat) (fileName : String) (orientation : Int)
    (timestamp : String) : UploadRequest :=
  ⟨blobId,
   [("file", fileName ++ ".jpg"),
    ("filename", fileName ++ ".jpg"),
    ("filetype", "image/jpeg"),
    ("source", "camera"),
    ("orientation", toString orientation),
    ("timestamp", timestamp)]⟩

/-- JavaScript truthiness of `data.textResponse`: present and nonempty. -/
def isTruthy : Option String → Bool
  | some t => decide (t ≠ "")
  | none => false

/-- The whitespace trim of `responseText.trim()`: drop leading and
trailing whitespace characters.  (Executable re-implementation of string
trimming over the character list.) -/
def jsTrim (s : String) : String :=
  String.mk (((s.data.dropWhile Char.isWhitespace).reverse.dropWhile
    Char.isWhitespace).reverse)

/-- The `data` value computed from a 2xx response (lines 137-159 of
`useCameraVoiceFlow.ts`): for a JSON content type with a nonempty trimmed
body, the parse result, or on a parse exception the object
`{ textResponse: responseText }`; otherwise an object without
`textResponse` (`{ success: true }`). -/
def respData (parse : String → Option ParsedJson) (resp : HttpResponse) : ParsedJson :=
  if resp.contentTypeJson = true then
    if jsTrim resp.body = "" then ⟨none, none⟩
    else
      match parse resp.body with
      | some d => d
      | none => ⟨some resp.body, none⟩
  else ⟨none, none⟩

/-- The messages added after a 2xx response: a truthy `textResponse` yields
an assistant message (with a data-URI `audioUrl` when `audioResponse` is
present) followed by the completion notice; otherwise the generic success
message. -/
def successMessages (d : ParsedJson) : List ChatMsg :=
  match d.textResponse with
  | some t =>
    if t = "" then [⟨MsgType.system, "Kuva lähetetty onnistuneesti", none⟩]
    else
      [⟨MsgType.assistant, t,
        Option.map (fun a => "data:audio/mpeg;base64," ++ a) d.audioResponse⟩,
       ⟨MsgType.system, "Analüüs valmis", none⟩]
  | none => [⟨MsgType.system, "Kuva lähetetty onnistuneesti", none⟩]

/-- Flow steps of `useCameraVoiceFlow` (`CameraVoiceFlowState.step`). -/
inductive FlowStep
  | idle
  | camera
  | captured
  | processing
  | playing
  deriving DecidableEq

/-- The observable outcome of one `processPhotoWithFilename` call:
the HTTP request sent (if any), the offline-queue hand-off (if any — blob
id, filename, `wantAudio` flag), the conversation messages added in order,
the toasts raised (title, destructive flag), the final flow step, and
whether `camera.close()` ran (via `resetFlow`). -/
structure FlowOutcome where
  request : Option UploadRequest
  queued : Option (Nat × String × Bool)
  messages : List ChatMsg
  toasts : List (String × Bool)
  step : FlowStep
  cameraClosed : Bool
  deriving DecidableEq

/-- `useCameraVoiceFlow.processPhotoWithFilename`, lines 83-226:
announce the analysis; offline (`!navigator.onLine`) hands the blob and
filename to `offlineStorage.saveOffline(blob, fileName, false)` and resets;
online builds the form data, posts it, throws on a non-2xx status (caught
below as the error message and toast), otherwise consumes the body via
`respData`/`successMessages`; every path ends in `resetFlow()` (step
`idle`, `camera.close()`). -/
def processPhotoWithFilename (online : Bool) (parse : String → Option ParsedJson)
    (resp : HttpResponse) (blobId : Nat) (fileName : String)
    (orientation : Int) (timestamp : String) : FlowOutcome :=
  if online = false then
    { request := none
      queued := some (blobId, fileName, false)
      messages :=
        [⟨MsgType.system, "Analüüsin pilti: " ++ fileName ++ ".jpg...", none⟩,
         ⟨MsgType.system, "Kuva tallennettu offline-tilassa. Lähetetään kun verkko palaa.", none⟩]
      toasts := [("Tallennettu offline-tilassa", false)]
      step := FlowStep.idle
      cameraClosed := true }
  else if resp.ok = false then
    { request := some (uploadRequest blobId fileName orientation timestamp)
      queued := none
      messages :=
        [⟨MsgType.system, "Analüüsin pilti: " ++ fileName ++ ".jpg...", none⟩,
         ⟨MsgType.system,
          "Viga: Kuva analüüs epäonnistus - N8N webhook error: " ++ toString resp.status,
          none⟩]
      toasts := [("Lähetys epäonnistui", true)]
      step := FlowStep.idle
      cameraClosed := true }
  else
    { request := some (uploadRequest blobId fileName orientation timestamp)
      queued := none
      messages :=
        ⟨MsgType.system, "Analüüsin pilti: " ++ fileName ++ ".jpg...", none⟩
          :: successMessages (respData parse resp)
      toasts := [("Kuva lähetetty", false)]
      step := FlowStep.idle
      cameraClosed := true }

/-! ### First theorems (crop geometry and fallback chain) -/

/-- Claim C3: for a native frame of positive size W x H and a display box of
positive size dw x dh, the capture geometry of `useModernCamera.capturePhoto`
has output aspect ratio exactly dw/dh, crops centered on the longer axis
(sourceX = (W - sourceWidth)/2 when the video is wider than the display,
sourceY = (H - sourceHeight)/2 otherwise, the other offset being zero), and
output width `max dw 1080`. -/
theorem capture_crop_geometry (W H dw dh : ℚ)
    (hW : 0 < W) (hH : 0 < H) (hdw : 0 < dw) (hdh : 0 < dh) :
    (capturePhotoGeom W H dw dh).outputWidth / (capturePhotoGeom W H dw dh).outputHeight
      = dw / dh
    ∧ (capturePhotoGeom W H dw dh).outputWidth = max dw 1080
    ∧ (W / H > dw / dh →
        (capturePhotoGeom W H dw dh).sourceX
            = (W - (capturePhotoGeom W H dw dh).sourceWidth) / 2
        ∧ (capturePhotoGeom W H dw dh).sourceY = 0)
    ∧ (¬ (W / H > dw / dh) →
        (capturePhotoGeom W H dw dh).sourceY
            = (H - (capturePhotoGeom W H dw dh).sourceHeight) / 2
        ∧ (capturePhotoGeom W H dw dh).sourceX = 0) := by
  have hR : (0 : ℚ) < dw / dh := div_pos hdw hdh
  have hmax : (0 : ℚ) < max dw 1080 :=
    lt_max_of_lt_right (by norm_num)
  have hout : max dw 1080 / (max dw 1080 / (dw / dh)) = dw / dh := by
    rw [div_div_eq_mul_div, mul_comm, mul_div_assoc, div_self (ne_of_gt hmax), mul_one]
  by_cases hgt : W / H > dw / dh
  · refine ⟨?_, ?_, ?_, ?_⟩
    · simp only [capturePhotoGeom, if_pos hgt]
      exact hout
    · simp only [capturePhotoGeom, if_pos hgt]
    · intro _
      constructor
      · simp only [capturePhotoGeom, if_pos hgt]
      · simp only [capturePhotoGeom, if_pos hgt]
    · intro hc
      exact absurd hgt hc
  · refine ⟨?_, ?_, ?_, ?_⟩
    · simp only [capturePhotoGeom, if_neg hgt]
      exact hout
    · simp only [capturePhotoGeom, if_neg hgt]
    · intro hc
      exact absurd hc hgt
    · intro _
      constructor
      · simp only [capturePhotoGeom, if_neg hgt]
      · simp only [capturePhotoGeom, if_neg hgt]

/-- Witness for `capture_crop_geometry` at a concrete 1920x1080 frame shown
in a 360x640 portrait box. -/
theorem capture_crop_geometry_witness :
    (capturePhotoGeom 1920 1080 360 640).outputWidth
        / (capturePhotoGeom 1920 1080 360 640).outputHeight = 360 / 640
    ∧ (capturePhotoGeom 1920 1080 360 640).outputWidth = max 360 1080 := by
  have h := capture_crop_geometry 1920 1080 360 640
    (by norm_num) (by norm_num) (by norm_num) (by norm_num)
  exact ⟨h.1, h.2.1⟩

/-- Helper: a prefix of attempts that all fail is skipped by `tryGetStream`,
leaving some recorded last error. -/
theorem tryGetStream_skip_failed {κ σ ε : Type} (env : κ → Except ε σ) (pre : List κ)
    (h : ∀ x ∈ pre, ∃ e, env x = Except.error e) (e0 : ε) :
    ∃ e1, ∀ l : List κ, tryGetStream env (pre ++ l) e0 = tryGetStream env l e1 := by
  induction pre generalizing e0 with
  | nil => exact ⟨e0, fun l => rfl⟩
  | cons a pre ih =>
    obtain ⟨ea, hea⟩ := h a (List.mem_cons_self a pre)
    obtain ⟨e1, h1⟩ := ih (fun x hx => h x (List.mem_cons_of_mem a hx)) ea
    refine ⟨e1, fun l => ?_⟩
    simpa [tryGetStream, hea] using h1 l

/-- Helper: a prefix of attempts that all fail is skipped by the
`useModernCamera` loop. -/
theorem startCameraLoop_skip_failed {κ σ ε : Type} (env : κ → Except ε σ) (pre : List κ)
    (h : ∀ x ∈ pre, ∃ e, env x = Except.error e) :
    ∀ l : List κ, startCameraLoop env (pre ++ l) = startCameraLoop env l := by
  induction pre with
  | nil => exact fun l => rfl
  | cons a pre ih =>
    intro l
    obtain ⟨ea, hea⟩ := h a (List.mem_cons_self a pre)
    simpa [startCameraLoop, hea] using
      ih (fun x hx => h x (List.mem_cons_of_mem a hx)) l

/-- Claim C1 (amended): all three acquisition loops try the constraint sets in
order and return the stream of the first attempt that succeeds, skipping the
rest; when every attempt fails, `CameraPanel.tryGetStream` and
`useCamera.open` propagate the failure of the last attempt, while
`useModernCamera.startCamera` instead throws the generic error
`No camera access available`. -/
theorem open_fallback_chain_spec {κ σ : Type} (env : κ → Except String σ)
    (pre suf : List κ) (c : κ) (e0 : String)
    (hpre : ∀ x ∈ pre, ∃ e, env x = Except.error e) :
    (∀ s, env c = Except.ok s →
      tryGetStream env (pre ++ c :: suf) e0 = Except.ok s
      ∧ modernStartAcquire env (pre ++ c :: suf) = Except.ok s)
    ∧ (∀ e, env c = Except.error e →
      tryGetStream env (pre ++ [c]) e0 = Except.error e
      ∧ modernStartAcquire env (pre ++ [c])
          = Except.error ("No camera access available")) := by
  constructor
  · intro s hs
    obtain ⟨e1, h1⟩ := tryGetStream_skip_failed env pre hpre e0
    constructor
    · rw [h1 (c :: suf)]
      simp [tryGetStream, hs]
    · rw [modernStartAcquire, startCameraLoop_skip_failed env pre hpre (c :: suf)]
      simp [startCameraLoop, hs]
  · intro e he
    obtain ⟨e1, h1⟩ := tryGetStream_skip_failed env pre hpre e0
    constructor
    · rw [h1 [c]]
      simp [tryGetStream, he]
    · rw [modernStartAcquire, startCameraLoop_skip_failed env pre hpre [c]]
      simp [startCameraLoop, he]

/-- Witness for `open_fallback_chain_spec`: a concrete environment in which
attempts 0 and 1 fail, attempt 2 succeeds with stream 2 and is returned with
attempt 3 skipped; and one in which both attempts fail and the last failure
(or the generic modern-camera error) is propagated. -/
theorem open_fallback_chain_spec_witness :
    (tryGetStream (fun n : Nat => if n < 2 then Except.error ("denied") else Except.ok n)
        [0, 1, 2, 3] ("fallback") = Except.ok 2
      ∧ modernStartAcquire
          (fun n : Nat => if n < 2 then Except.error ("denied") else Except.ok n)
          [0, 1, 2, 3] = Except.ok 2)
    ∧ (tryGetStream (fun n : Nat => if n < 2 then Except.error ("denied") else Except.ok n)
        [0, 1] ("fallback") = Except.error ("denied")
      ∧ modernStartAcquire
          (fun n : Nat => if n < 2 then Except.error ("denied") else Except.ok n)
          [0, 1] = Except.error ("No camera access available")) := by
  constructor
  · exact (open_fallback_chain_spec
      (fun n : Nat => if n < 2 then Except.error ("denied") else Except.ok n)
      [0, 1] [3] 2 ("fallback")
      (by intro x hx; refine ⟨"denied", ?_⟩; fin_cases hx <;> rfl)).1 2 (by rfl)
  · exact (open_fallback_chain_spec
      (fun n : Nat => if n < 2 then Except.error ("denied") else Except.ok n)
      [0] [] 1 ("fallback")
      (by intro x hx; refine ⟨"denied", ?_⟩; fin_cases hx <;> rfl)).2 ("denied") (by rfl)

/-- Counterexample to claim C1 as stated: when every constraint of
`useModernCamera.startCamera` fails with `NotAllowedError`, the error
propagated to the caller is the fresh generic `No camera access available`,
not the last attempt's failure. -/
theorem modern_start_discards_last_error :
    modernStartAcquire (fun _ : MediaConstraint => (Except.error ("NotAllowedError") : Except String Nat))
        modernCameraConstraints
      = Except.error ("No camera access available")
    ∧ ("No camera access available" : String) ≠ "NotAllowedError" := by
  exact ⟨rfl, by decide⟩

/-- Helper: stopping a superset of the live tracks leaves nothing live. -/
theorem filter_owned_nil (l ts : List Nat) (h : ∀ t ∈ l, t ∈ ts) :
    l.filter (fun t => decide (t ∉ ts)) = [] := by
  induction l with
  | nil => rfl
  | cons a l ih =>
    have ha : a ∈ ts := h a (List.mem_cons_self a l)
    simp only [List.filter_cons, decide_eq_true_eq]
    rw [if_neg (by simp [ha])]
    exact ih (fun t ht => h t (List.mem_cons_of_mem a ht))

/-- Helper: when the session owns every live track, `cleanup` nulls the
stream reference, stops every live track and does not advance the id
counter. -/
theorem cleanup_spec (s : CamSession) (w : MediaWorld) (hown : ownsLive s w) :
    (cleanup s w).1.stream = none ∧ (cleanup s w).1.state = s.state
    ∧ (cleanup s w).2.live = [] ∧ (cleanup s w).2.nextId = w.nextId := by
  cases hs : s.stream with
  | none =>
    have hlive : w.live = [] := by
      apply List.eq_nil_iff_forall_not_mem.2
      intro t ht
      have := hown t ht
      rw [hs] at this
      simpa [streamTracks] using this
    simp [cleanup, hs, hlive]
  | some ts =>
    have hsub : ∀ t ∈ w.live, t ∈ ts := by
      intro t ht
      have := hown t ht
      rwa [hs] at this
    have hnil := filter_owned_nil w.live ts hsub
    simp [cleanup, hs, stopTracks, hnil]
    exact hsub

/-- Claim C2: an open attempt stops every track of the previously held
stream before (and regardless of) acquiring a new one, so afterwards the
live tracks are exactly the tracks of the newly held stream (at most one
live handle); and closing the session from any non-idle state nulls the
stream reference, moves to `idle` and leaves zero live tracks. -/
theorem single_stream_invariant (s : CamSession) (w : MediaWorld) (outcome : Option Nat)
    (hown : ownsLive s w) (hfresh : sessionTracksFresh s w) :
    ((startCameraResource s w outcome).2.live
        = streamTracks (startCameraResource s w outcome).1.stream
      ∧ (∀ t ∈ streamTracks s.stream, t ∉ (startCameraResource s w outcome).2.live))
    ∧ (s.state ≠ CameraState.idle →
        (closeCamera s w).1.state = CameraState.idle
        ∧ (closeCamera s w).1.stream = none
        ∧ (closeCamera s w).2.live = []) := by
  obtain ⟨hcs, -, hcl, hcn⟩ := cleanup_spec s w hown
  constructor
  · cases outcome with
    | some n =>
      constructor
      · simp [startCameraResource, acquireStream, streamTracks, hcl]
      · intro t ht
        have htlt : t < w.nextId := hfresh t ht
        simp only [startCameraResource, acquireStream, hcl, hcn, List.nil_append]
        intro hmem
        obtain ⟨i, -, hi⟩ := List.mem_map.1 hmem
        omega
    | none =>
      have h2 := cleanup_spec (cleanup s w).1 (cleanup s w).2
        (by
          intro t ht
          rw [hcl] at ht
          cases ht)
      constructor
      · simp [startCameraResource, h2.1, h2.2.2.1, streamTracks]
      · intro t _
        simp [startCameraResource, h2.2.2.1]
  · intro _
    exact ⟨rfl, by simp [closeCamera, hcs], by simp [closeCamera, hcl]⟩

/-- Witness for `single_stream_invariant`: a ready session holding the
two-track stream `[0, 1]`, with both tracks live, reopened with a fresh
two-track stream and closed. -/
theorem single_stream_invariant_witness :
    ((startCameraResource ⟨CameraState.ready, some [0, 1]⟩ ⟨2, [0, 1]⟩ (some 2)).2.live
        = streamTracks
            (startCameraResource ⟨CameraState.ready, some [0, 1]⟩ ⟨2, [0, 1]⟩ (some 2)).1.stream)
    ∧ (closeCamera ⟨CameraState.ready, some [0, 1]⟩ ⟨2, [0, 1]⟩).2.live = [] := by
  refine ⟨?_, ?_⟩
  · exact (single_stream_invariant ⟨CameraState.ready, some [0, 1]⟩ ⟨2, [0, 1]⟩ (some 2)
      (by unfold ownsLive; decide) (by unfold sessionTracksFresh; decide)).1.1
  · exact ((single_stream_invariant ⟨CameraState.ready, some [0, 1]⟩ ⟨2, [0, 1]⟩ (some 2)
      (by unfold ownsLive; decide) (by unfold sessionTracksFresh; decide)).2 (by decide)).2.2

/-- Helper: no readiness signal ever moves a session into `opening`. -/
theorem applySignal_not_opening (sig : ReadySignal) (p : PanelSt)
    (h : p.state ≠ CameraState.opening) :
    (applySignal sig p).state ≠ CameraState.opening := by
  cases sig with
  | domEvent rs =>
    by_cases h2 : 2 ≤ rs
    · simpa [applySignal, h2, markReadyP, markReadyState, if_neg h] using h
    · simpa [applySignal, h2] using h
  | trackLiveUnmuted =>
    simpa [applySignal, markReadyP, markReadyState, if_neg h] using h
  | watchdogTimer rs =>
    by_cases hp : p.watchdogPending = true
    · by_cases h2 : 2 ≤ rs
      · simpa [applySignal, watchdogFire, hp, h2, markReadyState, if_neg h] using h
      · simp [applySignal, watchdogFire, hp, h2]
    · simpa [applySignal, watchdogFire, hp] using h

/-- Helper: a session that is not `opening` never records an
`opening`-to-`ready` transition. -/
theorem transCount_not_opening (sigs : List ReadySignal) (p : PanelSt)
    (h : p.state ≠ CameraState.opening) : transCount p sigs = 0 := by
  induction sigs generalizing p with
  | nil => rfl
  | cons sig rest ih =>
    rw [transCount]
    rw [if_neg (fun hc => h hc.1), ih (applySignal sig p) (applySignal_not_opening sig p h)]

/-- Claim C4: no matter how many readiness signals fire, and in whatever
order (DOM events, track unmute, watchdog check), an open attempt
transitions from `opening` to `ready` at most once; and the `markReady`
callback leaves the session state unchanged whenever the session has
already left `opening` (for example after close). -/
theorem readiness_idempotent (p : PanelSt) (sigs : List ReadySignal) :
    transCount p sigs ≤ 1
    ∧ (∀ q : PanelSt, q.state ≠ CameraState.opening → (markReadyP q).state = q.state) := by
  constructor
  · induction sigs generalizing p with
    | nil => exact Nat.zero_le 1
    | cons sig rest ih =>
      by_cases hp : p.state = CameraState.opening
      · rw [transCount]
        by_cases hq : (applySignal sig p).state = CameraState.ready
        · rw [if_pos ⟨hp, hq⟩]
          have : transCount (applySignal sig p) rest = 0 :=
            transCount_not_opening rest (applySignal sig p) (by rw [hq]; intro h; cases h)
          omega
        · rw [if_neg (fun hc => hq hc.2), Nat.zero_add]
          exact ih (applySignal sig p)
      · rw [transCount_not_opening (sig :: rest) p hp]
        exact Nat.zero_le 1
  · intro q hq
    simp [markReadyP, markReadyState, if_neg hq]

/-- Witness for `readiness_idempotent`: an attempt where metadata, canplay,
track unmute and the watchdog check all fire still counts at most one
transition, and `markReady` on an idle (closed) session does nothing. -/
theorem readiness_idempotent_witness :
    transCount ⟨CameraState.opening, true⟩
        [ReadySignal.domEvent 4, ReadySignal.trackLiveUnmuted,
         ReadySignal.domEvent 4, ReadySignal.watchdogTimer 4] ≤ 1
    ∧ (markReadyP ⟨CameraState.idle, false⟩).state = CameraState.idle := by
  refine ⟨(readiness_idempotent ⟨CameraState.opening, true⟩
    [ReadySignal.domEvent 4, ReadySignal.trackLiveUnmuted,
     ReadySignal.domEvent 4, ReadySignal.watchdogTimer 4]).1, ?_⟩
  exact (readiness_idempotent ⟨CameraState.opening, true⟩ []).2
    ⟨CameraState.idle, false⟩ (by decide)

/-- Helper: every readiness signal preserves the invariant that a `ready`
session has no pending watchdog (the only transition into `ready` is
`markReady`, which clears the timer). -/
theorem applySignal_ready_clears (sig : ReadySignal) (p : PanelSt)
    (h : p.state = CameraState.ready → p.watchdogPending = false) :
    (applySignal sig p).state = CameraState.ready →
      (applySignal sig p).watchdogPending = false := by
  cases sig with
  | domEvent rs =>
    by_cases h2 : 2 ≤ rs
    · intro _; simp [applySignal, h2, markReadyP]
    · simpa [applySignal, h2] using h
  | trackLiveUnmuted =>
    intro _; simp [applySignal, markReadyP]
  | watchdogTimer rs =>
    by_cases hp : p.watchdogPending = true
    · by_cases h2 : 2 ≤ rs
      · intro _; simp [applySignal, watchdogFire, hp, h2]
      · intro _; simp [applySignal, watchdogFire, hp, h2]
    · simpa [applySignal, watchdogFire, hp] using h

/-- Helper: along any run of readiness signals, a session that reaches
`ready` has its watchdog timer cleared. -/
theorem runSignals_ready_clears (sigs : List ReadySignal) (p : PanelSt)
    (h : p.state = CameraState.ready → p.watchdogPending = false) :
    (runSignals p sigs).state = CameraState.ready →
      (runSignals p sigs).watchdogPending = false := by
  induction sigs generalizing p with
  | nil => exact h
  | cons sig rest ih =>
    exact ih (applySignal sig p) (applySignal_ready_clears sig p h)

/-- Claim C5: the watchdog of an open attempt (a) forces the `error` state
when it fires with the sink still not ready, (b) is cancelled by
`markReady`, so it never fires after readiness was reached, (c) fires at
most once, and (d) can never force a session that became `ready` during the
attempt back to `error`. -/
theorem watchdog_timeout_once :
    (∀ rs : Nat, rs < 2 →
      watchdogFire rs ⟨CameraState.opening, true⟩ = ⟨CameraState.error, false⟩)
    ∧ (∀ (p : PanelSt) (rs : Nat), watchdogFire rs (markReadyP p) = markReadyP p)
    ∧ (∀ (p : PanelSt) (r1 r2 : Nat),
        watchdogFire r2 (watchdogFire r1 p) = watchdogFire r1 p)
    ∧ (∀ (sigs : List ReadySignal) (rs : Nat),
        (runSignals ⟨CameraState.opening, true⟩ sigs).state = CameraState.ready →
        (watchdogFire rs (runSignals ⟨CameraState.opening, true⟩ sigs)).state
          = CameraState.ready) := by
  refine ⟨?_, ?_, ?_, ?_⟩
  · intro rs h2
    have : ¬ 2 ≤ rs := by omega
    simp [watchdogFire, this]
  · intro p rs
    simp [watchdogFire, markReadyP]
  · intro p r1 r2
    by_cases hp : p.watchdogPending = true
    · by_cases h2 : 2 ≤ r1
      · simp [watchdogFire, hp, h2]
      · simp [watchdogFire, hp, h2]
    · simp [watchdogFire, hp]
  · intro sigs rs hready
    have hpend : (runSignals ⟨CameraState.opening, true⟩ sigs).watchdogPending = false :=
      runSignals_ready_clears sigs ⟨CameraState.opening, true⟩ (by intro h; cases h) hready
    rw [watchdogFire, if_neg (by simp [hpend])]
    exact hready

/-- Witness for `watchdog_timeout_once`: the watchdog firing unready forces
`error`; after the track-unmute signal marked the session ready, a late
watchdog leaves it `ready`. -/
theorem watchdog_timeout_once_witness :
    watchdogFire 0 ⟨CameraState.opening, true⟩ = ⟨CameraState.error, false⟩
    ∧ (watchdogFire 0 (runSignals ⟨CameraState.opening, true⟩
        [ReadySignal.trackLiveUnmuted])).state = CameraState.ready := by
  refine ⟨watchdog_timeout_once.1 0 (by decide), ?_⟩
  exact watchdog_timeout_once.2.2.2 [ReadySignal.trackLiveUnmuted] 0 (by decide)

/-- Claim C6: capture refuses and produces no image without touching the
session state whenever the session is not ready or the sink reports a zero
dimension — `useModernCamera.capturePhoto` rejects with `Camera not ready`
when the hook is inactive and with `Video not ready` when a reported
dimension is zero (with refs and context present), in both cases leaving
`isActive` unchanged; `CameraPanel.captureImage` returns at once from every
state other than `ready`, with no state write and no image. -/
theorem capture_requires_ready (isActive : Bool) (inp : ModernCaptureIn)
    (st : CameraState) (pinp : PanelCaptureIn) :
    (isActive = false →
      capturePhoto isActive inp = (CaptureResult.failure ("Camera not ready"), isActive))
    ∧ (isActive = true → inp.hasVideo = true → inp.hasCanvas = true →
        inp.hasContext = true → (inp.videoWidth = 0 ∨ inp.videoHeight = 0) →
        capturePhoto isActive inp = (CaptureResult.failure ("Video not ready"), isActive))
    ∧ (st ≠ CameraState.ready → captureImageRun st pinp = ([st], none)) := by
  refine ⟨?_, ?_, ?_⟩
  · intro ha
    rw [capturePhoto, if_pos (Or.inr (Or.inr ha))]
  · intro ha hv hc hctx hdim
    rw [capturePhoto,
      if_neg (by simp [ha, hv, hc]),
      if_neg (by simp [hctx]),
      if_pos hdim]
  · intro hst
    rw [captureImageRun, if_pos (Or.inl hst)]

/-- Witness for `capture_requires_ready`: an inactive hook rejects, an
active hook with a zero-width sink rejects, and `captureImage` in the
`opening` state is a no-op. -/
theorem capture_requires_ready_witness :
    capturePhoto false ⟨true, true, true, 1920, 1080, 360, 640, true⟩
        = (CaptureResult.failure ("Camera not ready"), false)
    ∧ capturePhoto true ⟨true, true, true, 0, 1080, 360, 640, true⟩
        = (CaptureResult.failure ("Video not ready"), true)
    ∧ captureImageRun CameraState.opening ⟨true, true, true, 1920, 1080, true⟩
        = ([CameraState.opening], none) := by
  refine ⟨?_, ?_, ?_⟩
  · exact (capture_requires_ready false ⟨true, true, true, 1920, 1080, 360, 640, true⟩
      CameraState.opening ⟨true, true, true, 1920, 1080, true⟩).1 rfl
  · exact (capture_requires_ready true ⟨true, true, true, 0, 1080, 360, 640, true⟩
      CameraState.ready ⟨true, true, true, 1920, 1080, true⟩).2.1
      rfl rfl rfl rfl (Or.inl rfl)
  · exact (capture_requires_ready false ⟨true, true, true, 1920, 1080, 360, 640, true⟩
      CameraState.opening ⟨true, true, true, 1920, 1080, true⟩).2.2 (by decide)

/-- Counterexample to claim C7 as stated: when `getContext('2d')` returns
null, `CameraPanel.captureImage` starts in `ready`, enters `capturing`, and
ends in `error` — not back in `ready` — so `capturing` does not return to
`ready` for every outcome of the capture. -/
theorem capturing_can_end_in_error :
    captureImageRun CameraState.ready ⟨true, true, false, 640, 480, true⟩
      = ([CameraState.ready, CameraState.capturing, CameraState.error], none)
    ∧ CameraState.error ≠ CameraState.ready := by
  exact ⟨rfl, by decide⟩

/-- Claim C7 (amended): an execution of `CameraPanel.captureImage` that
starts in `ready` and enters `capturing` returns the session to `ready`
whenever the drawing context is available and the JPEG encoding produces a
blob (every successful capture); when the context is missing the session
ends in `error` instead, and when `toBlob` yields null the callback throws
outside the try/catch and the session stays in `capturing`. -/
theorem capturing_returns_ready_on_success (inp : PanelCaptureIn)
    (hv : inp.hasVideo = true) (hc : inp.hasCanvas = true) :
    (inp.hasContext = true → inp.blobOk = true →
      captureImageRun CameraState.ready inp
        = ([CameraState.ready, CameraState.capturing, CameraState.ready],
           some ⟨inp.videoWidth, inp.videoHeight⟩))
    ∧ (inp.hasContext = false →
      captureImageRun CameraState.ready inp
        = ([CameraState.ready, CameraState.capturing, CameraState.error], none))
    ∧ (inp.hasContext = true → inp.blobOk = false →
      captureImageRun CameraState.ready inp
        = ([CameraState.ready, CameraState.capturing], none)) := by
  refine ⟨?_, ?_, ?_⟩
  · intro hctx hb
    rw [captureImageRun, if_neg (by simp [hv, hc]), if_neg (by simp [hctx]), if_pos hb]
  · intro hctx
    rw [captureImageRun, if_neg (by simp [hv, hc]), if_pos hctx]
  · intro hctx hb
    rw [captureImageRun, if_neg (by simp [hv, hc]), if_neg (by simp [hctx]), if_neg (by simp [hb])]

/-- Witness for `capturing_returns_ready_on_success`: a successful capture
of a 640x480 frame returns to `ready` with the image. -/
theorem capturing_returns_ready_on_success_witness :
    captureImageRun CameraState.ready ⟨true, true, true, 640, 480, true⟩
      = ([CameraState.ready, CameraState.capturing, CameraState.ready],
         some ⟨640, 480⟩) := by
  exact (capturing_returns_ready_on_success ⟨true, true, true, 640, 480, true⟩
    rfl rfl).1 rfl rfl

/-- Helper: when `data.textResponse` is not truthy (absent or empty), a 2xx
response yields exactly the generic success message. -/
theorem successMessages_generic (d : ParsedJson) (h : isTruthy d.textResponse = false) :
    successMessages d = [⟨MsgType.system, "Kuva lähetetty onnistuneesti", none⟩] := by
  cases ht : d.textResponse with
  | none =>
    unfold successMessages
    rw [ht]
  | some t =>
    have hte : t = "" := by
      rw [ht] at h
      simpa [isTruthy] using h
    unfold successMessages
    rw [ht]
    simp [hte]

/-- Helper: the shape of the 2xx branch of `processPhotoWithFilename`. -/
theorem processPhoto_ok_branch (parse : String → Option ParsedJson) (resp : HttpResponse)
    (blobId : Nat) (fileName : String) (orientation : Int) (timestamp : String)
    (hok : resp.ok = true) :
    processPhotoWithFilename true parse resp blobId fileName orientation timestamp
      = { request := some (uploadRequest blobId fileName orientation timestamp)
          queued := none
          messages :=
            ⟨MsgType.system, "Analüüsin pilti: " ++ fileName ++ ".jpg...", none⟩
              :: successMessages (respData parse resp)
          toasts := [("Kuva lähetetty", false)]
          step := FlowStep.idle
          cameraClosed := true } := by
  unfold processPhotoWithFilename
  rw [if_neg (by simp), if_neg (by simp [hok])]

/-- Claim C8: confirming filename `site-42` for a captured JPEG sends the
upload with form field `filename = "site-42.jpg"` (the `.jpg` suffix
appended to the chosen name), and a 2xx JSON response whose body parses to
`textResponse = "ok"` adds the assistant message `ok` to the conversation
and resets the flow to `idle` with the camera closed. -/
theorem upload_success_scenario (parse : String → Option ParsedJson)
    (resp : HttpResponse) (blobId : Nat) (orientation : Int) (timestamp : String)
    (hok : resp.ok = true) (hct : resp.contentTypeJson = true)
    (hbody : resp.body = "\x7b\"textResponse\": \"ok\"\x7d")
    (hparse : parse resp.body = some ⟨some ("ok"), none⟩) :
    (∃ r, (processPhotoWithFilename true parse resp blobId ("site-42")
            orientation timestamp).request = some r
      ∧ ("filename", "site-42.jpg") ∈ r.fields)
    ∧ ⟨MsgType.assistant, "ok", none⟩
        ∈ (processPhotoWithFilename true parse resp blobId ("site-42")
            orientation timestamp).messages
    ∧ (processPhotoWithFilename true parse resp blobId ("site-42")
        orientation timestamp).step = FlowStep.idle
    ∧ (processPhotoWithFilename true parse resp blobId ("site-42")
        orientation timestamp).cameraClosed = true := by
  have htrim : ¬ jsTrim resp.body = "" := by
    rw [hbody]
    decide
  have hdata : respData parse resp = ⟨some ("ok"), none⟩ := by
    unfold respData
    rw [if_pos hct, if_neg htrim, hparse]
  rw [processPhoto_ok_branch parse resp blobId ("site-42") orientation timestamp hok]
  refine ⟨⟨uploadRequest blobId ("site-42") orientation timestamp, rfl, ?_⟩, ?_, rfl, rfl⟩
  · simp [uploadRequest]
  · simp [hdata, successMessages]

/-- Witness for `upload_success_scenario` at a fully concrete oracle and
response. -/
theorem upload_success_scenario_witness :
    (∃ r, (processPhotoWithFilename true
            (fun s => if s = "\x7b\"textResponse\": \"ok\"\x7d"
              then some ⟨some ("ok"), none⟩ else none)
            ⟨200, true, "\x7b\"textResponse\": \"ok\"\x7d"⟩ 7 ("site-42") 0 ("t0")).request
          = some r
      ∧ ("filename", "site-42.jpg") ∈ r.fields)
    ∧ ⟨MsgType.assistant, "ok", none⟩
        ∈ (processPhotoWithFilename true
            (fun s => if s = "\x7b\"textResponse\": \"ok\"\x7d"
              then some ⟨some ("ok"), none⟩ else none)
            ⟨200, true, "\x7b\"textResponse\": \"ok\"\x7d"⟩ 7 ("site-42") 0 ("t0")).messages := by
  have h := upload_success_scenario
    (fun s => if s = "\x7b\"textResponse\": \"ok\"\x7d" then some ⟨some ("ok"), none⟩ else none)
    ⟨200, true, "\x7b\"textResponse\": \"ok\"\x7d"⟩ 7 0 ("t0")
    (by decide) rfl rfl (by simp)
  exact ⟨h.1, h.2.1⟩

/-- Claim C9: with connectivity reported offline at submission time, the
image and filename are handed to the offline queue (`wantAudio = false`),
no HTTP request is built or sent, and the flow resets to `idle` with the
camera closed once the hand-off returns. -/
theorem offline_branch_spec (parse : String → Option ParsedJson) (resp : HttpResponse)
    (blobId : Nat) (fileName : String) (orientation : Int) (timestamp : String) :
    (processPhotoWithFilename false parse resp blobId fileName orientation timestamp).request
        = none
    ∧ (processPhotoWithFilename false parse resp blobId fileName orientation
        timestamp).queued = some (blobId, fileName, false)
    ∧ (processPhotoWithFilename false parse resp blobId fileName orientation
        timestamp).step = FlowStep.idle
    ∧ (processPhotoWithFilename false parse resp blobId fileName orientation
        timestamp).cameraClosed = true := by
  unfold processPhotoWithFilename
  rw [if_pos rfl]
  exact ⟨rfl, rfl, rfl, rfl⟩

/-- Counterexample to claim C10 as stated: a 2xx JSON-typed response whose
body is a single space fails `JSON.parse`, yet the flow does not treat the
raw body as a text response — the trimmed-empty check runs first and the
generic success message is added instead. -/
theorem json_parse_failure_whitespace :
    (processPhotoWithFilename true (fun _ => (none : Option ParsedJson))
        ⟨200, true, " "⟩ 0 ("f") 0 ("ts")).messages
      = [⟨MsgType.system, "Analüüsin pilti: f.jpg...", none⟩,
         ⟨MsgType.system, "Kuva lähetetty onnistuneesti", none⟩]
    ∧ ⟨MsgType.assistant, " ", none⟩
        ∉ (processPhotoWithFilename true (fun _ => (none : Option ParsedJson))
            ⟨200, true, " "⟩ 0 ("f") 0 ("ts")).messages := by
  exact ⟨by decide, by decide⟩

/-- Claim C10 (amended): for every 2xx upload response the flow reports
success, never an error — the only toast is the non-destructive success
toast and the messages are the analysis notice followed by
`successMessages`; an empty (after trimming) body, a non-JSON content type,
or a parsed body without a truthy `textResponse` each yields the generic
success message; and a JSON-typed body that is nonempty after trimming but
fails to parse is treated as a text response equal to the raw body. -/
theorem upload_success_leniency (parse : String → Option ParsedJson) (resp : HttpResponse)
    (blobId : Nat) (fileName : String) (orientation : Int) (timestamp : String)
    (hok : resp.ok = true) :
    (processPhotoWithFilename true parse resp blobId fileName orientation timestamp).toasts
        = [("Kuva lähetetty", false)]
    ∧ (processPhotoWithFilename true parse resp blobId fileName orientation
        timestamp).messages
        = ⟨MsgType.system, "Analüüsin pilti: " ++ fileName ++ ".jpg...", none⟩
            :: successMessages (respData parse resp)
    ∧ ((resp.contentTypeJson = false ∨ jsTrim resp.body = ""
        ∨ (∃ d, parse resp.body = some d ∧ isTruthy d.textResponse = false)) →
        ⟨MsgType.system, "Kuva lähetetty onnistuneesti", none⟩
          ∈ (processPhotoWithFilename true parse resp blobId fileName orientation
              timestamp).messages)
    ∧ ((resp.contentTypeJson = true ∧ ¬ jsTrim resp.body = "" ∧ parse resp.body = none) →
        ⟨MsgType.assistant, resp.body, none⟩
          ∈ (processPhotoWithFilename true parse resp blobId fileName orientation
              timestamp).messages) := by
  have hb := processPhoto_ok_branch parse resp blobId fileName orientation timestamp hok
  refine ⟨by rw [hb], by rw [hb], ?_, ?_⟩
  · intro h
    have hfalse : isTruthy (respData parse resp).textResponse = false := by
      rcases h with hct | htrim | ⟨d, hd, hdt⟩
      · unfold respData
        rw [if_neg (by simp [hct])]
        rfl
      · by_cases hct : resp.contentTypeJson = true
        · unfold respData
          rw [if_pos hct, if_pos htrim]
          rfl
        · unfold respData
          rw [if_neg hct]
          rfl
      · by_cases hct : resp.contentTypeJson = true
        · by_cases htrim : jsTrim resp.body = ""
          · unfold respData
            rw [if_pos hct, if_pos htrim]
            rfl
          · unfold respData
            rw [if_pos hct, if_neg htrim, hd]
            exact hdt
        · unfold respData
          rw [if_neg hct]
          rfl
    rw [hb, successMessages_generic (respData parse resp) hfalse]
    simp
  · intro ⟨hct, htrim, hparse⟩
    have hdata : respData parse resp = ⟨some resp.body, none⟩ := by
      unfold respData
      rw [if_pos hct, if_neg htrim, hparse]
    have hbne : ¬ resp.body = "" := by
      intro he
      exact htrim (by rw [he]; decide)
    rw [hb, hdata]
    unfold successMessages
    simp [hbne]

/-- Witness for `upload_success_leniency`: a 204 JSON-typed empty body is
reported as plain success. -/
theorem upload_success_leniency_witness :
    (processPhotoWithFilename true (fun _ => (none : Option ParsedJson))
        ⟨204, true, ""⟩ 1 ("site") 0 ("t1")).toasts = [("Kuva lähetetty", false)]
    ∧ ⟨MsgType.system, "Kuva lähetetty onnistuneesti", none⟩
        ∈ (processPhotoWithFilename true (fun _ => (none : Option ParsedJson))
            ⟨204, true, ""⟩ 1 ("site") 0 ("t1")).messages := by
  have h := upload_success_leniency (fun _ => (none : Option ParsedJson))
    ⟨204, true, ""⟩ 1 ("site") 0 ("t1") (by decide)
  exact ⟨h.1, h.2.2.1 (Or.inr (Or.inl (by decide)))⟩
